import Mathlib

/-!
Shallow embedding of src/src/soter/openssl/soter_asym_cipher.c (themis soter
RSA-OAEP asymmetric cipher glue over the OpenSSL EVP engine).

The cryptographic engine (OpenSSL) is an external collaborator; it is modelled
as a record of deterministic oracle functions carried by the EVP_PKEY_CTX
value, one field per engine entry point the C file calls.  Each soter function
is translated branch-for-branch from the C source and additionally returns the
list of engine calls it issued, in order, so that call-ordering and
no-output-written properties can be stated.
-/

set_option maxHeartbeats 1000000

/-- Soter status codes (soter/error.h), the five values this file returns. -/
inductive soter_status where
  | SOTER_SUCCESS
  | SOTER_FAIL
  | SOTER_INVALID_PARAMETER
  | SOTER_NO_MEMORY
  | SOTER_BUFFER_TOO_SMALL
  deriving DecidableEq, Repr

/-- Byte strings are lists of byte values. -/
abbrev Bytes := List Nat

/-- One engine (OpenSSL) entry point invoked by the soter glue code, with the
arguments that matter to the spec claims. -/
inductive engine_call where
  | get0_pkey
  | pkey_id
  | get0_rsa
  | rsa_size
  | encrypt_init
  | decrypt_init
  | set_rsa_padding (pad : Int)
  | evp_encrypt_query (plain : Bytes)
  | evp_encrypt_write (plain : Bytes) (cap : Nat)
  | evp_decrypt_query (cipher : Bytes)
  | evp_decrypt_write (cipher : Bytes) (cap : Nat)
  | keygen_init
  | bn_new
  | bn_set_word (w : Nat)
  | ctrl_rsa_keygen_pubexp (e : Nat)
  | ctrl_rsa_keygen_bits (bits : Int)
  | evp_keygen
  deriving DecidableEq, Repr

/-- The RSA key object reachable through EVP_PKEY_get0: the glue code only
reads its modulus byte length via RSA_size. -/
structure RSA where
  size : Nat
  deriving DecidableEq, Repr

/-- An EVP_PKEY handle: its algorithm id (EVP_PKEY_id) and the RSA object it
holds, if any (EVP_PKEY_get0 returns NULL when no key material is bound). -/
structure EVP_PKEY where
  id : Int
  rsa : Option RSA
  deriving DecidableEq, Repr

/-- An EVP_PKEY_CTX handle together with the (determinized) behaviour of every
engine entry point the soter glue invokes on it.  `none` results model the
engine call returning failure (0); `Int` results model raw C return values
where the glue distinguishes `1 > r` from `!r`. -/
structure EVP_PKEY_CTX where
  /-- EVP_PKEY_CTX_get0_pkey: the pkey this operation context was created on. -/
  pkey : Option EVP_PKEY
  /-- EVP_PKEY_encrypt_init succeeds (nonzero). -/
  encrypt_init_ok : Bool
  /-- EVP_PKEY_decrypt_init succeeds (nonzero). -/
  decrypt_init_ok : Bool
  /-- EVP_PKEY_CTX_ctrl(ctx, -1, -1, EVP_PKEY_CTRL_RSA_PADDING, pad, NULL). -/
  ctrl_rsa_padding : Int → Int
  /-- EVP_PKEY_encrypt with a NULL output buffer: size query.  `some n` means
  the call returned nonzero and stored n in *outlen. -/
  encrypt_query : Bytes → Option Nat
  /-- EVP_PKEY_encrypt with a real output buffer of the given capacity:
  `some out` means the call returned nonzero, wrote `out` and stored
  `out.length` in *outlen. -/
  encrypt_buf : Bytes → Nat → Option Bytes
  /-- EVP_PKEY_decrypt with a NULL output buffer: size query. -/
  decrypt_query : Bytes → Option Nat
  /-- EVP_PKEY_decrypt with a real output buffer of the given capacity. -/
  decrypt_buf : Bytes → Nat → Option Bytes
  /-- EVP_PKEY_keygen_init succeeds (nonzero). -/
  keygen_init_ok : Bool
  /-- BN_new returns a non-NULL BIGNUM. -/
  bn_new_ok : Bool
  /-- BN_set_word(pub_exp, RSA_F4) succeeds (nonzero). -/
  bn_set_word_ok : Bool
  /-- EVP_PKEY_CTX_ctrl(..., EVP_PKEY_CTRL_RSA_KEYGEN_PUBEXP, 0, bn holding e). -/
  ctrl_keygen_pubexp : Nat → Int
  /-- EVP_PKEY_CTX_ctrl(..., EVP_PKEY_CTRL_RSA_KEYGEN_BITS, bits, NULL). -/
  ctrl_keygen_bits : Int → Int
  /-- EVP_PKEY_keygen succeeds (nonzero). -/
  keygen_ok : Bool

/-- The soter_asym_cipher_t context: it owns one EVP_PKEY_CTX handle field,
which is NULL (`none`) or a live handle. -/
structure soter_asym_cipher_t where
  pkey_ctx : Option EVP_PKEY_CTX

/-- OpenSSL constant: the NID of the RSA algorithm (EVP_PKEY_RSA). -/
def EVP_PKEY_RSA : Int := 6

/-- OpenSSL constant: the Fermat F4 public exponent 0x10001. -/
def RSA_F4 : Nat := 65537

/-- soter_asym_cipher.c line 25: the OAEP hash (SHA-1) size in bytes. -/
def OAEP_HASH_SIZE : Nat := 20

/-- OpenSSL constant for OAEP padding selection. -/
def RSA_PKCS1_OAEP_PADDING : Int := 4

/-- EVP_PKEY_CTX_get0_pkey lifted to a possibly-NULL context handle. -/
def EVP_PKEY_CTX_get0_pkey (c : Option EVP_PKEY_CTX) : Option EVP_PKEY :=
  c.bind (·.pkey)

/-- EVP_PKEY_id. -/
def EVP_PKEY_id (p : EVP_PKEY) : Int := p.id

/-- EVP_PKEY_get0: the underlying RSA object, NULL when no key material. -/
def EVP_PKEY_get0 (p : EVP_PKEY) : Option RSA := p.rsa

/-- RSA_size: modulus length in bytes (a C int in the source). -/
def RSA_size (r : RSA) : Nat := r.size

/-- The C conversion of a signed int value to size_t (64-bit unsigned), which
happens implicitly in the comparisons `plain_data_length > rsa_mod_size - 42`
and `cipher_data_length < rsa_mod_size` because size_t has greater rank than
int. -/
def size_t_of_int (v : Int) : Nat := (v % (2 ^ 64)).toNat

/-- Result of one encrypt or decrypt call: the returned status, the final
value of the in/out length (`none` iff the pointer was NULL), the bytes the
engine wrote into the output buffer (`none` = nothing written), and the engine
calls issued, in order. -/
structure cipher_op_result where
  status : soter_status
  out_len : Option Nat
  written : Option Bytes
  calls : List engine_call
  deriving Repr

/-- Shallow embedding of soter_asym_cipher_encrypt
(soter_asym_cipher.c lines 137-218).  The plaintext pointer and its length are
fused into `Option Bytes` (`none` = NULL pointer); `cipher_data` records
whether the output pointer is non-NULL; `cipher_data_length` is the in/out
size pointer.  The second EVP_PKEY_encrypt call in the C source acts as a
buffered write when cipher_data is non-NULL and as another size query when it
is NULL, which the embedding makes explicit.  On engine failure the in/out
length is modelled as left unchanged. -/
def soter_asym_cipher_encrypt (asym_cipher : Option soter_asym_cipher_t)
    (plain_data : Option Bytes) (cipher_data : Bool)
    (cipher_data_length : Option Nat) : cipher_op_result :=
  match asym_cipher, plain_data, cipher_data_length with
  | some ac, some plain, some cap =>
    if plain.length = 0 then
      { status := .SOTER_INVALID_PARAMETER, out_len := some cap, written := none, calls := [] }
    else
      match ac.pkey_ctx with
      | none =>
        { status := .SOTER_INVALID_PARAMETER, out_len := some cap, written := none,
          calls := [.get0_pkey] }
      | some pctx =>
        match pctx.pkey with
        | none =>
          { status := .SOTER_INVALID_PARAMETER, out_len := some cap, written := none,
            calls := [.get0_pkey] }
        | some pkey =>
          if EVP_PKEY_id pkey = EVP_PKEY_RSA then
            match EVP_PKEY_get0 pkey with
            | none =>
              { status := .SOTER_FAIL, out_len := some cap, written := none,
                calls := [.get0_pkey, .pkey_id, .get0_rsa] }
            | some rsa =>
              let rsa_mod_size : Int := (RSA_size rsa : Int)
              let pre : List engine_call := [.get0_pkey, .pkey_id, .get0_rsa, .rsa_size]
              if plain.length > size_t_of_int (rsa_mod_size - 2 - 2 * (OAEP_HASH_SIZE : Int)) then
                { status := .SOTER_INVALID_PARAMETER, out_len := some cap, written := none,
                  calls := pre }
              else if pctx.encrypt_init_ok = false then
                { status := .SOTER_FAIL, out_len := some cap, written := none,
                  calls := pre ++ [.encrypt_init] }
              else if pctx.ctrl_rsa_padding RSA_PKCS1_OAEP_PADDING < 1 then
                { status := .SOTER_FAIL, out_len := some cap, written := none,
                  calls := pre ++ [.encrypt_init, .set_rsa_padding RSA_PKCS1_OAEP_PADDING] }
              else
                let pre2 := pre ++ [.encrypt_init, .set_rsa_padding RSA_PKCS1_OAEP_PADDING,
                  .evp_encrypt_query plain]
                match pctx.encrypt_query plain with
                | none =>
                  { status := .SOTER_FAIL, out_len := some cap, written := none, calls := pre2 }
                | some output_length =>
                  if output_length > cap then
                    { status := .SOTER_BUFFER_TOO_SMALL, out_len := some output_length,
                      written := none, calls := pre2 }
                  else if cipher_data then
                    match pctx.encrypt_buf plain cap with
                    | some out =>
                      { status := .SOTER_SUCCESS, out_len := some out.length,
                        written := some out,
                        calls := pre2 ++ [.evp_encrypt_write plain cap] }
                    | none =>
                      { status := .SOTER_FAIL, out_len := some cap, written := none,
                        calls := pre2 ++ [.evp_encrypt_write plain cap] }
                  else
                    match pctx.encrypt_query plain with
                    | some output_length2 =>
                      { status := .SOTER_BUFFER_TOO_SMALL, out_len := some output_length2,
                        written := none, calls := pre2 ++ [.evp_encrypt_query plain] }
                    | none =>
                      { status := .SOTER_FAIL, out_len := some cap, written := none,
                        calls := pre2 ++ [.evp_encrypt_query plain] }
          else
            { status := .SOTER_INVALID_PARAMETER, out_len := some cap, written := none,
              calls := [.get0_pkey, .pkey_id] }
  | _, _, _ =>
    { status := .SOTER_INVALID_PARAMETER, out_len := cipher_data_length, written := none,
      calls := [] }

/-- Shallow embedding of soter_asym_cipher_decrypt
(soter_asym_cipher.c lines 220-301), symmetric to encrypt: the ciphertext
pointer and length are fused into `Option Bytes`, `plain_data` records whether
the output pointer is non-NULL, `plain_data_length` is the in/out size
pointer. -/
def soter_asym_cipher_decrypt (asym_cipher : Option soter_asym_cipher_t)
    (cipher_data : Option Bytes) (plain_data : Bool)
    (plain_data_length : Option Nat) : cipher_op_result :=
  match asym_cipher, cipher_data, plain_data_length with
  | some ac, some cipher, some cap =>
    if cipher.length = 0 then
      { status := .SOTER_INVALID_PARAMETER, out_len := some cap, written := none, calls := [] }
    else
      match ac.pkey_ctx with
      | none =>
        { status := .SOTER_INVALID_PARAMETER, out_len := some cap, written := none,
          calls := [.get0_pkey] }
      | some pctx =>
        match pctx.pkey with
        | none =>
          { status := .SOTER_INVALID_PARAMETER, out_len := some cap, written := none,
            calls := [.get0_pkey] }
        | some pkey =>
          if EVP_PKEY_id pkey = EVP_PKEY_RSA then
            match EVP_PKEY_get0 pkey with
            | none =>
              { status := .SOTER_FAIL, out_len := some cap, written := none,
                calls := [.get0_pkey, .pkey_id, .get0_rsa] }
            | some rsa =>
              let rsa_mod_size : Int := (RSA_size rsa : Int)
              let pre : List engine_call := [.get0_pkey, .pkey_id, .get0_rsa, .rsa_size]
              if cipher.length < size_t_of_int rsa_mod_size then
                { status := .SOTER_INVALID_PARAMETER, out_len := some cap, written := none,
                  calls := pre }
              else if pctx.decrypt_init_ok = false then
                { status := .SOTER_FAIL, out_len := some cap, written := none,
                  calls := pre ++ [.decrypt_init] }
              else if pctx.ctrl_rsa_padding RSA_PKCS1_OAEP_PADDING < 1 then
                { status := .SOTER_FAIL, out_len := some cap, written := none,
                  calls := pre ++ [.decrypt_init, .set_rsa_padding RSA_PKCS1_OAEP_PADDING] }
              else
                let pre2 := pre ++ [.decrypt_init, .set_rsa_padding RSA_PKCS1_OAEP_PADDING,
                  .evp_decrypt_query cipher]
                match pctx.decrypt_query cipher with
                | none =>
                  { status := .SOTER_FAIL, out_len := some cap, written := none, calls := pre2 }
                | some output_length =>
                  if output_length > cap then
                    { status := .SOTER_BUFFER_TOO_SMALL, out_len := some output_length,
                      written := none, calls := pre2 }
                  else if plain_data then
                    match pctx.decrypt_buf cipher cap with
                    | some out =>
                      { status := .SOTER_SUCCESS, out_len := some out.length,
                        written := some out,
                        calls := pre2 ++ [.evp_decrypt_write cipher cap] }
                    | none =>
                      { status := .SOTER_FAIL, out_len := some cap, written := none,
                        calls := pre2 ++ [.evp_decrypt_write cipher cap] }
                  else
                    match pctx.decrypt_query cipher with
                    | some output_length2 =>
                      { status := .SOTER_BUFFER_TOO_SMALL, out_len := some output_length2,
                        written := none, calls := pre2 ++ [.evp_decrypt_query cipher] }
                    | none =>
                      { status := .SOTER_FAIL, out_len := some cap, written := none,
                        calls := pre2 ++ [.evp_decrypt_query cipher] }
          else
            { status := .SOTER_INVALID_PARAMETER, out_len := some cap, written := none,
              calls := [.get0_pkey, .pkey_id] }
  | _, _, _ =>
    { status := .SOTER_INVALID_PARAMETER, out_len := plain_data_length, written := none,
      calls := [] }

/-- Result of a soter_asym_cipher_gen_key call. -/
structure gen_key_result where
  status : soter_status
  calls : List engine_call
  deriving Repr

/-- Shallow embedding of soter_asym_cipher_gen_key
(soter_asym_cipher.c lines 75-135).  The C checks are, in order: NULL context,
NULL pkey, non-RSA pkey, `!EVP_PKEY_keygen_init`, `!BN_new`, `!BN_set_word`,
`1 > ctrl(KEYGEN_PUBEXP, pub_exp holding RSA_F4)`,
`1 > ctrl(KEYGEN_BITS, 2048)`, and finally EVP_PKEY_keygen. -/
def soter_asym_cipher_gen_key (asym_cipher : Option soter_asym_cipher_t) : gen_key_result :=
  match asym_cipher with
  | none => { status := .SOTER_INVALID_PARAMETER, calls := [] }
  | some ac =>
    match ac.pkey_ctx with
    | none => { status := .SOTER_INVALID_PARAMETER, calls := [.get0_pkey] }
    | some pctx =>
      match pctx.pkey with
      | none => { status := .SOTER_INVALID_PARAMETER, calls := [.get0_pkey] }
      | some pkey =>
        if EVP_PKEY_id pkey = EVP_PKEY_RSA then
          if pctx.keygen_init_ok = false then
            { status := .SOTER_INVALID_PARAMETER,
              calls := [.get0_pkey, .pkey_id, .keygen_init] }
          else if pctx.bn_new_ok = false then
            { status := .SOTER_NO_MEMORY,
              calls := [.get0_pkey, .pkey_id, .keygen_init, .bn_new] }
          else if pctx.bn_set_word_ok = false then
            { status := .SOTER_FAIL,
              calls := [.get0_pkey, .pkey_id, .keygen_init, .bn_new, .bn_set_word RSA_F4] }
          else if pctx.ctrl_keygen_pubexp RSA_F4 < 1 then
            { status := .SOTER_FAIL,
              calls := [.get0_pkey, .pkey_id, .keygen_init, .bn_new, .bn_set_word RSA_F4,
                .ctrl_rsa_keygen_pubexp RSA_F4] }
          else if pctx.ctrl_keygen_bits 2048 < 1 then
            { status := .SOTER_FAIL,
              calls := [.get0_pkey, .pkey_id, .keygen_init, .bn_new, .bn_set_word RSA_F4,
                .ctrl_rsa_keygen_pubexp RSA_F4, .ctrl_rsa_keygen_bits 2048] }
          else if pctx.keygen_ok then
            { status := .SOTER_SUCCESS,
              calls := [.get0_pkey, .pkey_id, .keygen_init, .bn_new, .bn_set_word RSA_F4,
                .ctrl_rsa_keygen_pubexp RSA_F4, .ctrl_rsa_keygen_bits 2048, .evp_keygen] }
          else
            { status := .SOTER_FAIL,
              calls := [.get0_pkey, .pkey_id, .keygen_init, .bn_new, .bn_set_word RSA_F4,
                .ctrl_rsa_keygen_pubexp RSA_F4, .ctrl_rsa_keygen_bits 2048, .evp_keygen] }
        else
          { status := .SOTER_INVALID_PARAMETER, calls := [.get0_pkey, .pkey_id] }

/-- Result of soter_asym_cipher_cleanup: the status, the state of the context
struct after the call (`none` iff the argument was NULL), and the
EVP_PKEY_CTX handles passed to EVP_PKEY_CTX_free during the call. -/
structure cleanup_result where
  status : soter_status
  asym_cipher : Option soter_asym_cipher_t
  freed : List EVP_PKEY_CTX

/-- Shallow embedding of soter_asym_cipher_cleanup
(soter_asym_cipher.c lines 60-73).  Note that the C code frees
asym_cipher->pkey_ctx when it is non-NULL but does not write to the field, so
the returned struct state is the argument unchanged. -/
def soter_asym_cipher_cleanup (asym_cipher : Option soter_asym_cipher_t) : cleanup_result :=
  match asym_cipher with
  | none => { status := .SOTER_INVALID_PARAMETER, asym_cipher := none, freed := [] }
  | some ac =>
    match ac.pkey_ctx with
    | none => { status := .SOTER_SUCCESS, asym_cipher := some ac, freed := [] }
    | some pctx => { status := .SOTER_SUCCESS, asym_cipher := some ac, freed := [pctx] }

/-- Result of soter_asym_cipher_destroy: the status, whether free() was called
on the soter struct itself, and the engine handles freed. -/
structure destroy_result where
  status : soter_status
  freed_struct : Bool
  freed : List EVP_PKEY_CTX

/-- Shallow embedding of soter_asym_cipher_destroy
(soter_asym_cipher.c lines 324-343): cleanup, then free the struct only when
cleanup returned SOTER_SUCCESS. -/
def soter_asym_cipher_destroy (asym_cipher : Option soter_asym_cipher_t) : destroy_result :=
  match asym_cipher with
  | none => { status := .SOTER_INVALID_PARAMETER, freed_struct := false, freed := [] }
  | some ac =>
    let c := soter_asym_cipher_cleanup (some ac)
    if c.status = .SOTER_SUCCESS then
      { status := .SOTER_SUCCESS, freed_struct := true, freed := c.freed }
    else
      { status := c.status, freed_struct := false, freed := c.freed }

/-- Modelled from the spec: byte size of the external key-container header
`soter_container_hdr_t` (declared in soter headers that are not under src/):
a tag, a total-length field and a checksum; the exact value is irrelevant to
the glue code, which only compares the input length against it and reads the
first tag byte. -/
def sizeof_soter_container_hdr : Nat := 12

/-- Modelled from the spec: the KeyCodec collaborator (soter_rsa_key.c, not
under src/).  It serializes the engine key into a tagged container
(export direction, returning only a status here since the container bytes do
not matter to any claim) and parses a tagged container into an engine key or
fails with some status (import direction). -/
structure KeyCodec where
  to_rsa_priv_key : EVP_PKEY → Option Nat → soter_status
  to_rsa_pub_key : EVP_PKEY → Option Nat → soter_status
  rsa_priv_key_to_engine_specific : Bytes → Except soter_status EVP_PKEY
  rsa_pub_key_to_engine_specific : Bytes → Except soter_status EVP_PKEY

/-- A sane KeyCodec never signals failure with the SOTER_SUCCESS code. -/
def codec_wf (c : KeyCodec) : Prop :=
  (∀ kb e, c.rsa_priv_key_to_engine_specific kb = .error e → e ≠ .SOTER_SUCCESS) ∧
  (∀ kb e, c.rsa_pub_key_to_engine_specific kb = .error e → e ≠ .SOTER_SUCCESS)

/-- Shallow embedding of soter_asym_cipher_export_key
(soter_asym_cipher.c lines 345-375): NULL-context, NULL-pkey and non-RSA
checks, then delegation to the KeyCodec. -/
def soter_asym_cipher_export_key (codec : KeyCodec)
    (asym_cipher_ctx : Option soter_asym_cipher_t) (key_length : Option Nat)
    (isprivate : Bool) : soter_status :=
  match asym_cipher_ctx with
  | none => .SOTER_INVALID_PARAMETER
  | some ac =>
    match EVP_PKEY_CTX_get0_pkey ac.pkey_ctx with
    | none => .SOTER_INVALID_PARAMETER
    | some pkey =>
      if EVP_PKEY_id pkey = EVP_PKEY_RSA then
        if isprivate then codec.to_rsa_priv_key pkey key_length
        else codec.to_rsa_pub_key pkey key_length
      else .SOTER_INVALID_PARAMETER

/-- Result of soter_asym_cipher_import_key: the status and the context state
after the call. -/
structure import_result where
  status : soter_status
  asym_cipher_ctx : Option soter_asym_cipher_t

/-- The context with its bound key replaced by `k` (what a successful KeyCodec
parse does: it installs the decoded RSA key into the EVP_PKEY the operation
context holds). -/
def bind_key (ac : soter_asym_cipher_t) (pctx : EVP_PKEY_CTX) (k : EVP_PKEY) :
    soter_asym_cipher_t :=
  { ac with pkey_ctx := some { pctx with pkey := some k } }

/-- Shallow embedding of soter_asym_cipher_import_key
(soter_asym_cipher.c lines 377-413).  The key pointer and length are fused
into `Option Bytes`.  Checks in C order: NULL context, NULL pkey, non-RSA
pkey, NULL key or short container, then dispatch on the first tag byte:
0x52 is the character R (private key), 0x55 is the character U (public key),
anything else is rejected.  The parse itself is the spec-modelled KeyCodec:
on success the decoded key replaces the bound key, on failure the context is
left as it was. -/
def soter_asym_cipher_import_key (codec : KeyCodec)
    (asym_cipher_ctx : Option soter_asym_cipher_t) (key : Option Bytes) : import_result :=
  match asym_cipher_ctx with
  | none => { status := .SOTER_INVALID_PARAMETER, asym_cipher_ctx := none }
  | some ac =>
    match ac.pkey_ctx with
    | none => { status := .SOTER_INVALID_PARAMETER, asym_cipher_ctx := some ac }
    | some pctx =>
      match pctx.pkey with
      | none => { status := .SOTER_INVALID_PARAMETER, asym_cipher_ctx := some ac }
      | some pkey =>
        if EVP_PKEY_id pkey = EVP_PKEY_RSA then
          match key with
          | none => { status := .SOTER_INVALID_PARAMETER, asym_cipher_ctx := some ac }
          | some kb =>
            if kb.length < sizeof_soter_container_hdr then
              { status := .SOTER_INVALID_PARAMETER, asym_cipher_ctx := some ac }
            else if kb.headD 0 = 0x52 then
              match codec.rsa_priv_key_to_engine_specific kb with
              | .ok k => { status := .SOTER_SUCCESS, asym_cipher_ctx := some (bind_key ac pctx k) }
              | .error e => { status := e, asym_cipher_ctx := some ac }
            else if kb.headD 0 = 0x55 then
              match codec.rsa_pub_key_to_engine_specific kb with
              | .ok k => { status := .SOTER_SUCCESS, asym_cipher_ctx := some (bind_key ac pctx k) }
              | .error e => { status := e, asym_cipher_ctx := some ac }
            else
              { status := .SOTER_INVALID_PARAMETER, asym_cipher_ctx := some ac }
        else
          { status := .SOTER_INVALID_PARAMETER, asym_cipher_ctx := some ac }

/-! ### Concrete engine instances used as witnesses -/

/-- A deterministic stand-in for OAEP encryption under a 2048-bit (256-byte)
modulus: left-pad the message with zeros up to 255 bytes, preceded by a
nonzero marker, so the ciphertext is one 256-byte block and the message is
recoverable. -/
def demoEnc (p : Bytes) : Bytes := List.replicate (255 - p.length) 0 ++ 1 :: p

/-- Inverse of demoEnc: strip the zero padding and the marker byte. -/
def demoDec (c : Bytes) : Bytes := (c.dropWhile (fun b => b == 0)).tail

/-- The EVP_PKEY of a freshly generated 2048-bit RSA key: RSA-typed with a
256-byte modulus. -/
def demoKey : EVP_PKEY := { id := EVP_PKEY_RSA, rsa := some { size := 256 } }

/-- A well-behaved engine operation context holding demoKey: every init and
ctrl call succeeds, the size queries report one 256-byte modulus block, and
the buffered calls succeed exactly when the buffer fits the output. -/
def demoCtx : EVP_PKEY_CTX where
  pkey := some demoKey
  encrypt_init_ok := true
  decrypt_init_ok := true
  ctrl_rsa_padding := fun _ => 1
  encrypt_query := fun _ => some 256
  encrypt_buf := fun p cap => if 256 ≤ cap then some (demoEnc p) else none
  decrypt_query := fun _ => some 256
  decrypt_buf := fun c cap => if (demoDec c).length ≤ cap then some (demoDec c) else none
  keygen_init_ok := true
  bn_new_ok := true
  bn_set_word_ok := true
  ctrl_keygen_pubexp := fun _ => 1
  ctrl_keygen_bits := fun _ => 1
  keygen_ok := true

/-- demoCtx with an RSA key whose modulus is only 10 bytes, on which the
engine (like OpenSSL) cannot perform OAEP at all: OAEP needs at least
2 + 2 * 20 bytes of overhead, so EVP_PKEY_encrypt fails. -/
def tinyCtx : EVP_PKEY_CTX :=
  { demoCtx with
    pkey := some { id := EVP_PKEY_RSA, rsa := some { size := 10 } }
    encrypt_query := fun _ => none
    encrypt_buf := fun _ _ => none }

/-- demoCtx whose engine decrypt rejects every ciphertext, modelling the OAEP
unpad/integrity failure on a corrupted (bit-flipped) ciphertext. -/
def corruptCtx : EVP_PKEY_CTX :=
  { demoCtx with
    decrypt_query := fun _ => some 256
    decrypt_buf := fun _ _ => none }

/-- The engine state of a successfully initialized context before any keygen
or import: soter_asym_cipher_init (lines 37-55) creates the operation context
on a fresh RSA-typed EVP_PKEY that holds no key material yet, so
EVP_PKEY_CTX_get0_pkey returns that pkey while EVP_PKEY_get0 returns NULL. -/
def noKeyCtx : EVP_PKEY_CTX :=
  { demoCtx with pkey := some { id := EVP_PKEY_RSA, rsa := none } }

/-- A concrete KeyCodec: private-key containers decode to demoKey, public-key
containers are rejected with SOTER_FAIL. -/
def demoCodec : KeyCodec where
  to_rsa_priv_key := fun _ _ => .SOTER_SUCCESS
  to_rsa_pub_key := fun _ _ => .SOTER_SUCCESS
  rsa_priv_key_to_engine_specific := fun _ => .ok demoKey
  rsa_pub_key_to_engine_specific := fun _ => .error .SOTER_FAIL

theorem demoCodec_wf : codec_wf demoCodec := by
  constructor
  · intro kb e h
    simp only [demoCodec] at h
    cases h
  · intro kb e h
    simp only [demoCodec] at h
    cases h
    simp

/-! ### Helper lemmas -/

theorem size_t_of_int_ofNat (n : Nat) (h : n < 2 ^ 64) : size_t_of_int (n : Int) = n := by
  simp only [size_t_of_int]
  rw [Int.emod_eq_of_lt (by positivity) (by exact_mod_cast h)]
  simp

/-- The encrypt length check under a modulus of at least 42 bytes: the
int-to-size_t conversion does not wrap and the bound is modSize - 42. -/
theorem size_t_of_int_oaep_bound (msize : Nat) (h1 : 42 ≤ msize) (h2 : msize < 2 ^ 31) :
    size_t_of_int ((msize : Int) - 2 - 2 * (OAEP_HASH_SIZE : Int)) = msize - 42 := by
  have e : (msize : Int) - 2 - 2 * (OAEP_HASH_SIZE : Int) = ((msize - 42 : Nat) : Int) := by
    simp only [OAEP_HASH_SIZE]
    omega
  rw [e, size_t_of_int_ofNat]
  omega

theorem dropWhile_zero_marker (k : Nat) (p : Bytes) :
    List.dropWhile (fun b => b == 0) (List.replicate k 0 ++ 1 :: p) = 1 :: p := by
  induction k with
  | zero => simp [List.dropWhile]
  | succ n ih => simp [List.replicate_succ, List.dropWhile, ih]

theorem demoDec_demoEnc (p : Bytes) : demoDec (demoEnc p) = p := by
  simp [demoDec, demoEnc, dropWhile_zero_marker]

theorem demoEnc_length (p : Bytes) (h : p.length ≤ 255) : (demoEnc p).length = 256 := by
  simp [demoEnc]
  omega

/-- The contract the spec assigns to the external CryptoEngine for a context
holding a freshly generated 2048-bit RSA key: the key is RSA-typed with a
256-byte modulus, operation initialization and OAEP selection succeed, the
encrypt size query reports one modulus block, buffered OAEP encryption of any
plaintext of 1 to 214 bytes into a big-enough buffer succeeds, the decrypt
size query reports at most one modulus block, and buffered OAEP decryption of
a produced ciphertext into a big-enough buffer recovers the plaintext.
`E` is the (determinized) OAEP encryption the engine performs. -/
def rsa2048_engine_ok (pctx : EVP_PKEY_CTX) (E : Bytes → Bytes) : Prop :=
  pctx.pkey = some { id := EVP_PKEY_RSA, rsa := some { size := 256 } } ∧
  pctx.encrypt_init_ok = true ∧
  pctx.decrypt_init_ok = true ∧
  1 ≤ pctx.ctrl_rsa_padding RSA_PKCS1_OAEP_PADDING ∧
  (∀ p : Bytes, 1 ≤ p.length → p.length ≤ 214 → pctx.encrypt_query p = some 256) ∧
  (∀ p : Bytes, 1 ≤ p.length → p.length ≤ 214 → (E p).length = 256) ∧
  (∀ p : Bytes, ∀ cap : Nat, 1 ≤ p.length → p.length ≤ 214 → 256 ≤ cap →
    pctx.encrypt_buf p cap = some (E p)) ∧
  (∀ p : Bytes, 1 ≤ p.length → p.length ≤ 214 →
    ∃ dq, dq ≤ 256 ∧ pctx.decrypt_query (E p) = some dq) ∧
  (∀ p : Bytes, ∀ cap : Nat, 1 ≤ p.length → p.length ≤ 214 → 256 ≤ cap →
    pctx.decrypt_buf (E p) cap = some p)

theorem demoCtx_engine_ok : rsa2048_engine_ok demoCtx demoEnc := by
  refine ⟨rfl, rfl, rfl, le_refl 1, fun p h1 h2 => rfl, ?_, ?_, ?_, ?_⟩
  · intro p h1 h2
    exact demoEnc_length p (by omega)
  · intro p cap h1 h2 hcap
    simp [demoCtx, hcap]
  · intro p h1 h2
    exact ⟨256, le_refl 256, rfl⟩
  · intro p cap h1 h2 hcap
    simp [demoCtx, demoDec_demoEnc]
    omega

/-- Reduction of encrypt on the all-checks-pass, buffered-success path. -/
theorem encrypt_success_eq (pctx : EVP_PKEY_CTX) (pk : EVP_PKEY) (r : RSA)
    (p out : Bytes) (cap n : Nat)
    (hpk : pctx.pkey = some pk) (hid : pk.id = EVP_PKEY_RSA) (hrsa : pk.rsa = some r)
    (hne : ¬ p.length = 0)
    (hbound : ¬ p.length > size_t_of_int ((r.size : Int) - 2 - 2 * (OAEP_HASH_SIZE : Int)))
    (hei : pctx.encrypt_init_ok = true)
    (hpad : ¬ pctx.ctrl_rsa_padding RSA_PKCS1_OAEP_PADDING < 1)
    (hq : pctx.encrypt_query p = some n) (hcap : ¬ n > cap)
    (hbuf : pctx.encrypt_buf p cap = some out) :
    soter_asym_cipher_encrypt (some ⟨some pctx⟩) (some p) true (some cap) =
      { status := .SOTER_SUCCESS, out_len := some out.length, written := some out,
        calls := [.get0_pkey, .pkey_id, .get0_rsa, .rsa_size, .encrypt_init,
          .set_rsa_padding RSA_PKCS1_OAEP_PADDING, .evp_encrypt_query p,
          .evp_encrypt_write p cap] } := by
  simp [soter_asym_cipher_encrypt, hpk, hid, hrsa, hne, hbound, hei, hpad, hq, hcap, hbuf,
    EVP_PKEY_id, EVP_PKEY_get0, RSA_size]

/-- Reduction of decrypt on the all-checks-pass, buffered-success path. -/
theorem decrypt_success_eq (pctx : EVP_PKEY_CTX) (pk : EVP_PKEY) (r : RSA)
    (c out : Bytes) (cap n : Nat)
    (hpk : pctx.pkey = some pk) (hid : pk.id = EVP_PKEY_RSA) (hrsa : pk.rsa = some r)
    (hne : ¬ c.length = 0)
    (hbound : ¬ c.length < size_t_of_int ((r.size : Int)))
    (hdi : pctx.decrypt_init_ok = true)
    (hpad : ¬ pctx.ctrl_rsa_padding RSA_PKCS1_OAEP_PADDING < 1)
    (hq : pctx.decrypt_query c = some n) (hcap : ¬ n > cap)
    (hbuf : pctx.decrypt_buf c cap = some out) :
    soter_asym_cipher_decrypt (some ⟨some pctx⟩) (some c) true (some cap) =
      { status := .SOTER_SUCCESS, out_len := some out.length, written := some out,
        calls := [.get0_pkey, .pkey_id, .get0_rsa, .rsa_size, .decrypt_init,
          .set_rsa_padding RSA_PKCS1_OAEP_PADDING, .evp_decrypt_query c,
          .evp_decrypt_write c cap] } := by
  simp [soter_asym_cipher_decrypt, hpk, hid, hrsa, hne, hbound, hdi, hpad, hq, hcap, hbuf,
    EVP_PKEY_id, EVP_PKEY_get0, RSA_size]

/-! ### Claim C1 -/

/-- C1, counterexample: the claim quantifies over every plaintext p with
len(p) <= modSize - 42, but the code rejects the empty plaintext (length 0,
within that bound) with SOTER_INVALID_PARAMETER at the argument check
(soter_asym_cipher.c line 144), so encrypt-then-decrypt does not return
Success there even on a context holding a fresh 2048-bit RSA key whose engine
satisfies the OAEP round-trip contract. -/
theorem C1_roundtrip_counterexample :
    rsa2048_engine_ok demoCtx demoEnc ∧
    ([] : Bytes).length ≤ 256 - 42 ∧
    (soter_asym_cipher_encrypt (some ⟨some demoCtx⟩) (some ([] : Bytes)) true
      (some 256)).status = .SOTER_INVALID_PARAMETER :=
  ⟨demoCtx_engine_ok, by decide, rfl⟩

/-- C1 (amended: the plaintext must additionally be nonempty, since encrypt
rejects a zero-length plaintext with InvalidParameter): for every engine
context holding a fresh 2048-bit RSA key that satisfies the OAEP engine
contract, and every plaintext p with 1 <= len(p) <= modSize - 42 = 214,
encrypting p into a sufficiently large buffer returns SOTER_SUCCESS with the
engine ciphertext, and decrypting that ciphertext returns SOTER_SUCCESS and
yields exactly p. -/
theorem C1_roundtrip (pctx : EVP_PKEY_CTX) (E : Bytes → Bytes)
    (heng : rsa2048_engine_ok pctx E) (p : Bytes)
    (h1 : 1 ≤ p.length) (h2 : p.length ≤ 256 - 42)
    (ccap pcap : Nat) (hc : 256 ≤ ccap) (hp : 256 ≤ pcap) :
    (soter_asym_cipher_encrypt (some ⟨some pctx⟩) (some p) true (some ccap)).status
      = .SOTER_SUCCESS ∧
    (soter_asym_cipher_encrypt (some ⟨some pctx⟩) (some p) true (some ccap)).written
      = some (E p) ∧
    (soter_asym_cipher_decrypt (some ⟨some pctx⟩) (some (E p)) true (some pcap)).status
      = .SOTER_SUCCESS ∧
    (soter_asym_cipher_decrypt (some ⟨some pctx⟩) (some (E p)) true (some pcap)).written
      = some p ∧
    (soter_asym_cipher_decrypt (some ⟨some pctx⟩) (some (E p)) true (some pcap)).out_len
      = some p.length := by
  obtain ⟨hpk, hei, hdi, hpad, hq, hElen, hbuf, hdq, hdbuf⟩ := heng
  have h2' : p.length ≤ 214 := by omega
  obtain ⟨dq, hdq1, hdq2⟩ := hdq p h1 h2'
  have hEl : (E p).length = 256 := hElen p h1 h2'
  have hbound : ¬ p.length > size_t_of_int ((256 : Int) - 2 - 2 * (OAEP_HASH_SIZE : Int)) := by
    have e : size_t_of_int ((256 : Int) - 2 - 2 * (OAEP_HASH_SIZE : Int)) = 214 := by decide
    rw [e]
    omega
  have hdbound : ¬ (E p).length < size_t_of_int ((256 : Int)) := by
    have e : size_t_of_int ((256 : Int)) = 256 := by decide
    rw [e, hEl]
    omega
  have he := encrypt_success_eq pctx _ _ p (E p) ccap 256 hpk rfl rfl
    (by omega) hbound hei (by omega) (hq p h1 h2') (by omega) (hbuf p ccap h1 h2' hc)
  have hd := decrypt_success_eq pctx _ _ (E p) p pcap dq hpk rfl rfl
    (by omega) hdbound hdi (by omega) hdq2 (by omega) (hdbuf p pcap h1 h2' hp)
  rw [he, hd]
  simp

/-- Witness for C1_roundtrip at the demo engine and the plaintext [5]. -/
theorem C1_roundtrip_witness :
    (soter_asym_cipher_encrypt (some ⟨some demoCtx⟩) (some [5]) true (some 256)).status
      = .SOTER_SUCCESS ∧
    (soter_asym_cipher_encrypt (some ⟨some demoCtx⟩) (some [5]) true (some 256)).written
      = some (demoEnc [5]) ∧
    (soter_asym_cipher_decrypt (some ⟨some demoCtx⟩) (some (demoEnc [5])) true
      (some 256)).status = .SOTER_SUCCESS ∧
    (soter_asym_cipher_decrypt (some ⟨some demoCtx⟩) (some (demoEnc [5])) true
      (some 256)).written = some [5] ∧
    (soter_asym_cipher_decrypt (some ⟨some demoCtx⟩) (some (demoEnc [5])) true
      (some 256)).out_len = some ([5] : Bytes).length :=
  C1_roundtrip demoCtx demoEnc demoCtx_engine_ok [5] (by decide) (by decide)
    256 256 (by decide) (by decide)

/-! ### Claim C2 -/

/-- C2: the two-phase buffer protocol of soter_asym_cipher_encrypt on a
context bound to an RSA key, a valid-length nonempty plaintext, and an engine
whose size query reports n > 0: if n exceeds the supplied *cipher_data_length
the call stores n there and returns BufferTooSmall without writing output; if
n fits and cipher_data is non-NULL the buffered encryption runs and a
successful run returns Success with *cipher_data_length set to the bytes
written; if cipher_data is NULL at that stage the call returns BufferTooSmall;
in particular a call with *cipher_data_length = 0 returns BufferTooSmall
reporting exactly n, and a subsequent call sized to n is accepted. -/
theorem C2_encrypt_buffer_protocol (pctx : EVP_PKEY_CTX) (pk : EVP_PKEY) (r : RSA)
    (p : Bytes) (n cap : Nat)
    (hpk : pctx.pkey = some pk) (hid : pk.id = EVP_PKEY_RSA) (hrsa : pk.rsa = some r)
    (hne : 1 ≤ p.length)
    (hvalid : p.length ≤ size_t_of_int ((r.size : Int) - 2 - 2 * (OAEP_HASH_SIZE : Int)))
    (hei : pctx.encrypt_init_ok = true)
    (hpad : 1 ≤ pctx.ctrl_rsa_padding RSA_PKCS1_OAEP_PADDING)
    (hq : pctx.encrypt_query p = some n) (hn : 0 < n) :
    (n > cap →
      (soter_asym_cipher_encrypt (some ⟨some pctx⟩) (some p) true (some cap)).status
        = .SOTER_BUFFER_TOO_SMALL ∧
      (soter_asym_cipher_encrypt (some ⟨some pctx⟩) (some p) true (some cap)).out_len
        = some n ∧
      (soter_asym_cipher_encrypt (some ⟨some pctx⟩) (some p) true (some cap)).written
        = none) ∧
    (¬ n > cap → ∀ out, pctx.encrypt_buf p cap = some out →
      (soter_asym_cipher_encrypt (some ⟨some pctx⟩) (some p) true (some cap)).status
        = .SOTER_SUCCESS ∧
      (soter_asym_cipher_encrypt (some ⟨some pctx⟩) (some p) true (some cap)).out_len
        = some out.length ∧
      (soter_asym_cipher_encrypt (some ⟨some pctx⟩) (some p) true (some cap)).written
        = some out) ∧
    (¬ n > cap →
      (soter_asym_cipher_encrypt (some ⟨some pctx⟩) (some p) false (some cap)).status
        = .SOTER_BUFFER_TOO_SMALL ∧
      (soter_asym_cipher_encrypt (some ⟨some pctx⟩) (some p) false (some cap)).written
        = none) ∧
    ((soter_asym_cipher_encrypt (some ⟨some pctx⟩) (some p) true (some 0)).status
        = .SOTER_BUFFER_TOO_SMALL ∧
      (soter_asym_cipher_encrypt (some ⟨some pctx⟩) (some p) true (some 0)).out_len
        = some n) ∧
    (∀ out, pctx.encrypt_buf p n = some out →
      (soter_asym_cipher_encrypt (some ⟨some pctx⟩) (some p) true (some n)).status
        = .SOTER_SUCCESS) := by
  have hne' : ¬ p.length = 0 := by omega
  have hbound : ¬ p.length > size_t_of_int ((r.size : Int) - 2 - 2 * (OAEP_HASH_SIZE : Int)) :=
    not_lt.mpr hvalid
  have hpad' : ¬ pctx.ctrl_rsa_padding RSA_PKCS1_OAEP_PADDING < 1 := not_lt.mpr hpad
  refine ⟨?_, ?_, ?_, ?_, ?_⟩
  · intro hgt
    simp [soter_asym_cipher_encrypt, hpk, hid, hrsa, hne', hbound, hei, hpad', hq, hgt,
      EVP_PKEY_id, EVP_PKEY_get0, RSA_size]
  · intro hle out hbuf
    rw [encrypt_success_eq pctx pk r p out cap n hpk hid hrsa hne' hbound hei hpad' hq hle hbuf]
    simp
  · intro hle
    simp [soter_asym_cipher_encrypt, hpk, hid, hrsa, hne', hbound, hei, hpad', hq, hle,
      EVP_PKEY_id, EVP_PKEY_get0, RSA_size]
  · have hgt : n > 0 := hn
    simp [soter_asym_cipher_encrypt, hpk, hid, hrsa, hne', hbound, hei, hpad', hq, hgt,
      EVP_PKEY_id, EVP_PKEY_get0, RSA_size]
  · intro out hbuf
    rw [encrypt_success_eq pctx pk r p out n n hpk hid hrsa hne' hbound hei hpad' hq
      (by omega) hbuf]

/-- Witness for C2_encrypt_buffer_protocol at the demo engine, plaintext [5],
reported size 256 and a 10-byte first buffer. -/
theorem C2_encrypt_buffer_protocol_witness :
    ((256 : Nat) > 10 →
      (soter_asym_cipher_encrypt (some ⟨some demoCtx⟩) (some [5]) true (some 10)).status
        = .SOTER_BUFFER_TOO_SMALL ∧
      (soter_asym_cipher_encrypt (some ⟨some demoCtx⟩) (some [5]) true (some 10)).out_len
        = some 256 ∧
      (soter_asym_cipher_encrypt (some ⟨some demoCtx⟩) (some [5]) true (some 10)).written
        = none) ∧
    (¬ (256 : Nat) > 10 → ∀ out, demoCtx.encrypt_buf [5] 10 = some out →
      (soter_asym_cipher_encrypt (some ⟨some demoCtx⟩) (some [5]) true (some 10)).status
        = .SOTER_SUCCESS ∧
      (soter_asym_cipher_encrypt (some ⟨some demoCtx⟩) (some [5]) true (some 10)).out_len
        = some out.length ∧
      (soter_asym_cipher_encrypt (some ⟨some demoCtx⟩) (some [5]) true (some 10)).written
        = some out) ∧
    (¬ (256 : Nat) > 10 →
      (soter_asym_cipher_encrypt (some ⟨some demoCtx⟩) (some [5]) false (some 10)).status
        = .SOTER_BUFFER_TOO_SMALL ∧
      (soter_asym_cipher_encrypt (some ⟨some demoCtx⟩) (some [5]) false (some 10)).written
        = none) ∧
    ((soter_asym_cipher_encrypt (some ⟨some demoCtx⟩) (some [5]) true (some 0)).status
        = .SOTER_BUFFER_TOO_SMALL ∧
      (soter_asym_cipher_encrypt (some ⟨some demoCtx⟩) (some [5]) true (some 0)).out_len
        = some 256) ∧
    (∀ out, demoCtx.encrypt_buf [5] 256 = some out →
      (soter_asym_cipher_encrypt (some ⟨some demoCtx⟩) (some [5]) true (some 256)).status
        = .SOTER_SUCCESS) :=
  C2_encrypt_buffer_protocol demoCtx demoKey { size := 256 } [5] 256 10 rfl rfl rfl
    (by decide) (by decide) rfl (by decide) rfl (by decide)

/-! ### Claim C3 -/

/-- C3, counterexample: on a context bound to an RSA key with a 10-byte
modulus, the plaintext [1] has length 1 > modSize - 2 - 2*20 = -32, so the
claim demands InvalidParameter; but the C comparison converts the negative
int to size_t (soter_asym_cipher.c line 170), the check never fires, and the
call proceeds to the engine, whose OAEP encryption fails for so small a
modulus, so the call returns SOTER_FAIL instead. -/
theorem C3_length_check_counterexample :
    ((1 : Int) > (10 : Int) - 2 - 2 * 20) ∧
    (soter_asym_cipher_encrypt (some ⟨some tinyCtx⟩) (some [1]) true (some 300)).status
      = .SOTER_FAIL ∧
    ¬ (soter_asym_cipher_encrypt (some ⟨some tinyCtx⟩) (some [1]) true (some 300)).status
      = .SOTER_INVALID_PARAMETER :=
  ⟨by decide, rfl, by decide⟩

/-- C3 (amended: restricted to modSize >= 42, since for a smaller modulus the
int-to-size_t conversion makes the comparison vacuous and the length check
never rejects): on a context bound to an RSA key with modulus byte length
modSize, 42 <= modSize < 2^31, encrypt returns InvalidParameter whenever the
plaintext length exceeds modSize - 42, and a nonempty plaintext of length
exactly modSize - 42 is not rejected with InvalidParameter. -/
theorem C3_oaep_length_check (pctx : EVP_PKEY_CTX) (pk : EVP_PKEY) (r : RSA)
    (p : Bytes) (cap : Nat)
    (hpk : pctx.pkey = some pk) (hid : pk.id = EVP_PKEY_RSA) (hrsa : pk.rsa = some r)
    (hms : 42 ≤ r.size) (hms2 : r.size < 2 ^ 31) :
    (p.length > r.size - 42 →
      (soter_asym_cipher_encrypt (some ⟨some pctx⟩) (some p) true (some cap)).status
        = .SOTER_INVALID_PARAMETER) ∧
    (p.length = r.size - 42 → 1 ≤ p.length →
      ¬ (soter_asym_cipher_encrypt (some ⟨some pctx⟩) (some p) true (some cap)).status
        = .SOTER_INVALID_PARAMETER) := by
  constructor
  · intro hgt
    have hne : ¬ p.length = 0 := by omega
    have hbound : p.length > size_t_of_int ((r.size : Int) - 2 - 2 * (OAEP_HASH_SIZE : Int)) := by
      rw [size_t_of_int_oaep_bound r.size hms hms2]
      omega
    simp [soter_asym_cipher_encrypt, hpk, hid, hrsa, hne, hbound,
      EVP_PKEY_id, EVP_PKEY_get0, RSA_size]
  · intro heq h1
    have hne : ¬ p.length = 0 := by omega
    have hbound : ¬ p.length > size_t_of_int ((r.size : Int) - 2 - 2 * (OAEP_HASH_SIZE : Int)) := by
      rw [size_t_of_int_oaep_bound r.size hms hms2]
      omega
    simp only [soter_asym_cipher_encrypt, hpk, hid, hrsa, EVP_PKEY_id, EVP_PKEY_get0, RSA_size]
    rw [if_neg hne, if_pos True.intro, if_neg hbound]
    split <;> try simp
    split <;> try simp
    split <;> try simp
    split <;> try simp
    split <;> simp

/-- Witness for C3_oaep_length_check at the demo 2048-bit engine. -/
theorem C3_oaep_length_check_witness :
    ((List.replicate 215 7 : Bytes).length > 256 - 42 →
      (soter_asym_cipher_encrypt (some ⟨some demoCtx⟩) (some (List.replicate 215 7)) true
        (some 256)).status = .SOTER_INVALID_PARAMETER) ∧
    ((List.replicate 215 7 : Bytes).length = 256 - 42 → 1 ≤ (List.replicate 215 7 : Bytes).length →
      ¬ (soter_asym_cipher_encrypt (some ⟨some demoCtx⟩) (some (List.replicate 215 7)) true
        (some 256)).status = .SOTER_INVALID_PARAMETER) :=
  C3_oaep_length_check demoCtx demoKey { size := 256 } (List.replicate 215 7) 256 rfl rfl rfl
    (by decide) (by decide)

/-! ### Claim C4 -/

/-- C4: soter_asym_cipher_decrypt on a context bound to an RSA key returns
InvalidParameter whenever the ciphertext is shorter than the modulus byte
length, and every engine decrypt/unpad failure — whether in the size query or
in the buffered decryption of a well-sized (possibly corrupted) ciphertext —
surfaces as the single status SOTER_FAIL with no plaintext written. -/
theorem C4_decrypt_errors (pctx : EVP_PKEY_CTX) (pk : EVP_PKEY) (r : RSA)
    (c : Bytes) (cap : Nat)
    (hpk : pctx.pkey = some pk) (hid : pk.id = EVP_PKEY_RSA) (hrsa : pk.rsa = some r)
    (hms2 : r.size < 2 ^ 31) (hc0 : 1 ≤ c.length) :
    (c.length < r.size →
      (soter_asym_cipher_decrypt (some ⟨some pctx⟩) (some c) true (some cap)).status
        = .SOTER_INVALID_PARAMETER) ∧
    (pctx.decrypt_init_ok = true →
      1 ≤ pctx.ctrl_rsa_padding RSA_PKCS1_OAEP_PADDING →
      r.size ≤ c.length →
      (pctx.decrypt_query c = none →
        (soter_asym_cipher_decrypt (some ⟨some pctx⟩) (some c) true (some cap)).status
          = .SOTER_FAIL ∧
        (soter_asym_cipher_decrypt (some ⟨some pctx⟩) (some c) true (some cap)).written
          = none) ∧
      (∀ n, pctx.decrypt_query c = some n → ¬ n > cap → pctx.decrypt_buf c cap = none →
        (soter_asym_cipher_decrypt (some ⟨some pctx⟩) (some c) true (some cap)).status
          = .SOTER_FAIL ∧
        (soter_asym_cipher_decrypt (some ⟨some pctx⟩) (some c) true (some cap)).written
          = none)) := by
  have hne : ¬ c.length = 0 := by omega
  have hsz : size_t_of_int ((r.size : Int)) = r.size :=
    size_t_of_int_ofNat r.size (by omega)
  constructor
  · intro hlt
    have hbound : c.length < size_t_of_int ((r.size : Int)) := by rw [hsz]; omega
    simp [soter_asym_cipher_decrypt, hpk, hid, hrsa, hne, hbound,
      EVP_PKEY_id, EVP_PKEY_get0, RSA_size]
  · intro hdi hpad hge
    have hbound : ¬ c.length < size_t_of_int ((r.size : Int)) := by rw [hsz]; omega
    have hpad' : ¬ pctx.ctrl_rsa_padding RSA_PKCS1_OAEP_PADDING < 1 := not_lt.mpr hpad
    constructor
    · intro hqn
      simp [soter_asym_cipher_decrypt, hpk, hid, hrsa, hne, hbound, hdi, hpad', hqn,
        EVP_PKEY_id, EVP_PKEY_get0, RSA_size]
    · intro n hqn hle hbuf
      simp [soter_asym_cipher_decrypt, hpk, hid, hrsa, hne, hbound, hdi, hpad', hqn, hle, hbuf,
        EVP_PKEY_id, EVP_PKEY_get0, RSA_size]

/-- Witness for C4_decrypt_errors at the corrupted-ciphertext demo engine:
a short 10-byte ciphertext and a well-sized 256-byte ciphertext the engine
rejects at unpad. -/
theorem C4_decrypt_errors_witness :
    ((List.replicate 256 9 : Bytes).length < 256 →
      (soter_asym_cipher_decrypt (some ⟨some corruptCtx⟩) (some (List.replicate 256 9)) true
        (some 256)).status = .SOTER_INVALID_PARAMETER) ∧
    (corruptCtx.decrypt_init_ok = true →
      1 ≤ corruptCtx.ctrl_rsa_padding RSA_PKCS1_OAEP_PADDING →
      256 ≤ (List.replicate 256 9 : Bytes).length →
      (corruptCtx.decrypt_query (List.replicate 256 9) = none →
        (soter_asym_cipher_decrypt (some ⟨some corruptCtx⟩) (some (List.replicate 256 9)) true
          (some 256)).status = .SOTER_FAIL ∧
        (soter_asym_cipher_decrypt (some ⟨some corruptCtx⟩) (some (List.replicate 256 9)) true
          (some 256)).written = none) ∧
      (∀ n, corruptCtx.decrypt_query (List.replicate 256 9) = some n → ¬ n > 256 →
        corruptCtx.decrypt_buf (List.replicate 256 9) 256 = none →
        (soter_asym_cipher_decrypt (some ⟨some corruptCtx⟩) (some (List.replicate 256 9)) true
          (some 256)).status = .SOTER_FAIL ∧
        (soter_asym_cipher_decrypt (some ⟨some corruptCtx⟩) (some (List.replicate 256 9)) true
          (some 256)).written = none)) :=
  C4_decrypt_errors corruptCtx demoKey { size := 256 } (List.replicate 256 9) 256 rfl rfl rfl
    (by decide) (by rw [List.length_replicate]; decide)

/-! ### Claim C5 -/

/-- C5, counterexample: after a successful soter_asym_cipher_init the context
holds a non-NULL RSA-typed pkey with no key material (lines 37-55), so before
any keygen or import EVP_PKEY_CTX_get0_pkey is non-NULL, the pkey-NULL and
algorithm checks pass, and encrypt and decrypt fall through to the
EVP_PKEY_get0 == NULL check (lines 163-166, 246-249), which returns
SOTER_FAIL — not SOTER_INVALID_PARAMETER as the claim states. -/
theorem C5_unbound_context_counterexample :
    noKeyCtx.pkey = some { id := EVP_PKEY_RSA, rsa := none } ∧
    (soter_asym_cipher_encrypt (some ⟨some noKeyCtx⟩) (some [1]) true
      (some 256)).status = .SOTER_FAIL ∧
    ¬ (soter_asym_cipher_encrypt (some ⟨some noKeyCtx⟩) (some [1]) true
      (some 256)).status = .SOTER_INVALID_PARAMETER ∧
    (soter_asym_cipher_decrypt (some ⟨some noKeyCtx⟩) (some [2]) true
      (some 256)).status = .SOTER_FAIL ∧
    ¬ (soter_asym_cipher_decrypt (some ⟨some noKeyCtx⟩) (some [2]) true
      (some 256)).status = .SOTER_INVALID_PARAMETER :=
  ⟨rfl, rfl, by decide, rfl, by decide⟩

/-- C5 (amended: on the post-init unbound state — an RSA-typed pkey holding
no key material, so EVP_PKEY_get0 returns NULL — encrypt and decrypt return
SOTER_FAIL, not InvalidParameter, for every nonempty input with a present
length pointer; export passes its own validation on that state and returns
whatever status the KeyCodec serializer gives for the keyless pkey). -/
theorem C5_unbound_context (pctx : EVP_PKEY_CTX) (pk : EVP_PKEY)
    (hpk : pctx.pkey = some pk) (hid : pk.id = EVP_PKEY_RSA) (hrsa : pk.rsa = none)
    (codec : KeyCodec) (p c : Bytes) (hp : 1 ≤ p.length) (hc : 1 ≤ c.length)
    (b1 b2 : Bool) (cap1 cap2 : Nat) (kl : Option Nat) (ispriv : Bool) :
    (soter_asym_cipher_encrypt (some ⟨some pctx⟩) (some p) b1 (some cap1)).status
      = .SOTER_FAIL ∧
    (soter_asym_cipher_decrypt (some ⟨some pctx⟩) (some c) b2 (some cap2)).status
      = .SOTER_FAIL ∧
    soter_asym_cipher_export_key codec (some ⟨some pctx⟩) kl ispriv =
      (if ispriv then codec.to_rsa_priv_key pk kl else codec.to_rsa_pub_key pk kl) := by
  have hp' : ¬ p.length = 0 := by omega
  have hc' : ¬ c.length = 0 := by omega
  refine ⟨?_, ?_, ?_⟩
  · simp [soter_asym_cipher_encrypt, EVP_PKEY_id, EVP_PKEY_get0, hpk, hid, hrsa, hp']
  · simp [soter_asym_cipher_decrypt, EVP_PKEY_id, EVP_PKEY_get0, hpk, hid, hrsa, hc']
  · simp [soter_asym_cipher_export_key, EVP_PKEY_CTX_get0_pkey, EVP_PKEY_id, hpk, hid]

/-- Witness for C5_unbound_context on the post-init keyless engine state. -/
theorem C5_unbound_context_witness :
    (soter_asym_cipher_encrypt (some ⟨some noKeyCtx⟩) (some [1]) true
      (some 256)).status = .SOTER_FAIL ∧
    (soter_asym_cipher_decrypt (some ⟨some noKeyCtx⟩) (some [2]) true
      (some 256)).status = .SOTER_FAIL ∧
    soter_asym_cipher_export_key demoCodec (some ⟨some noKeyCtx⟩) (some 0) true =
      (if true then demoCodec.to_rsa_priv_key { id := EVP_PKEY_RSA, rsa := none } (some 0)
       else demoCodec.to_rsa_pub_key { id := EVP_PKEY_RSA, rsa := none } (some 0)) :=
  C5_unbound_context noKeyCtx { id := EVP_PKEY_RSA, rsa := none } rfl rfl rfl demoCodec
    [1] [2] (by decide) (by decide) true true 256 256 (some 0) true

/-! ### Claim C6 -/

/-- C6: soter_asym_cipher_import_key on a context bound to an RSA-typed key:
a NULL key pointer or a container shorter than the header size yields
InvalidParameter; otherwise the first tag byte dispatches — 0x52 (the
character R) to the private-key parser, 0x55 (the character U) to the
public-key parser, whose status the call returns — and every other tag value
yields InvalidParameter. -/
theorem C6_import_dispatch (codec : KeyCodec) (ac : soter_asym_cipher_t)
    (pctx : EVP_PKEY_CTX) (pk : EVP_PKEY)
    (hctx : ac.pkey_ctx = some pctx) (hpk : pctx.pkey = some pk)
    (hid : pk.id = EVP_PKEY_RSA) :
    ((soter_asym_cipher_import_key codec (some ac) none).status
      = .SOTER_INVALID_PARAMETER) ∧
    (∀ kb : Bytes, kb.length < sizeof_soter_container_hdr →
      (soter_asym_cipher_import_key codec (some ac) (some kb)).status
        = .SOTER_INVALID_PARAMETER) ∧
    (∀ kb : Bytes, sizeof_soter_container_hdr ≤ kb.length → kb.headD 0 = 0x52 →
      (soter_asym_cipher_import_key codec (some ac) (some kb)).status =
        (match codec.rsa_priv_key_to_engine_specific kb with
          | .ok _ => .SOTER_SUCCESS
          | .error e => e)) ∧
    (∀ kb : Bytes, sizeof_soter_container_hdr ≤ kb.length → kb.headD 0 = 0x55 →
      (soter_asym_cipher_import_key codec (some ac) (some kb)).status =
        (match codec.rsa_pub_key_to_engine_specific kb with
          | .ok _ => .SOTER_SUCCESS
          | .error e => e)) ∧
    (∀ kb : Bytes, sizeof_soter_container_hdr ≤ kb.length →
      kb.headD 0 ≠ 0x52 → kb.headD 0 ≠ 0x55 →
      (soter_asym_cipher_import_key codec (some ac) (some kb)).status
        = .SOTER_INVALID_PARAMETER) := by
  refine ⟨?_, ?_, ?_, ?_, ?_⟩
  · simp [soter_asym_cipher_import_key, hctx, hpk, hid]
  · intro kb hlen
    simp [soter_asym_cipher_import_key, hctx, hpk, hid, hlen]
  · intro kb hlen htag
    have hlen' : ¬ kb.length < sizeof_soter_container_hdr := not_lt.mpr hlen
    have htagn : (kb.head?).getD 0 = 0x52 := by simpa using htag
    cases hp : codec.rsa_priv_key_to_engine_specific kb <;>
      simp [soter_asym_cipher_import_key, EVP_PKEY_id, hctx, hpk, hid, hlen', htagn, hp]
  · intro kb hlen htag
    have hlen' : ¬ kb.length < sizeof_soter_container_hdr := not_lt.mpr hlen
    have htagn : (kb.head?).getD 0 = 0x55 := by simpa using htag
    have htag' : ¬ (kb.head?).getD 0 = 0x52 := by omega
    cases hp : codec.rsa_pub_key_to_engine_specific kb <;>
      simp [soter_asym_cipher_import_key, EVP_PKEY_id, hctx, hpk, hid, hlen', htagn, htag', hp]
  · intro kb hlen h52 h55
    have hlen' : ¬ kb.length < sizeof_soter_container_hdr := not_lt.mpr hlen
    have h52n : ¬ (kb.head?).getD 0 = 0x52 := by simpa using h52
    have h55n : ¬ (kb.head?).getD 0 = 0x55 := by simpa using h55
    simp [soter_asym_cipher_import_key, EVP_PKEY_id, hctx, hpk, hid, hlen', h52n, h55n]

/-- Witness for C6_import_dispatch with the demo codec on a bound context. -/
theorem C6_import_dispatch_witness :
    ((soter_asym_cipher_import_key demoCodec (some ⟨some demoCtx⟩) none).status
      = .SOTER_INVALID_PARAMETER) ∧
    (∀ kb : Bytes, kb.length < sizeof_soter_container_hdr →
      (soter_asym_cipher_import_key demoCodec (some ⟨some demoCtx⟩) (some kb)).status
        = .SOTER_INVALID_PARAMETER) ∧
    (∀ kb : Bytes, sizeof_soter_container_hdr ≤ kb.length → kb.headD 0 = 0x52 →
      (soter_asym_cipher_import_key demoCodec (some ⟨some demoCtx⟩) (some kb)).status =
        (match demoCodec.rsa_priv_key_to_engine_specific kb with
          | .ok _ => .SOTER_SUCCESS
          | .error e => e)) ∧
    (∀ kb : Bytes, sizeof_soter_container_hdr ≤ kb.length → kb.headD 0 = 0x55 →
      (soter_asym_cipher_import_key demoCodec (some ⟨some demoCtx⟩) (some kb)).status =
        (match demoCodec.rsa_pub_key_to_engine_specific kb with
          | .ok _ => .SOTER_SUCCESS
          | .error e => e)) ∧
    (∀ kb : Bytes, sizeof_soter_container_hdr ≤ kb.length →
      kb.headD 0 ≠ 0x52 → kb.headD 0 ≠ 0x55 →
      (soter_asym_cipher_import_key demoCodec (some ⟨some demoCtx⟩) (some kb)).status
        = .SOTER_INVALID_PARAMETER) :=
  C6_import_dispatch demoCodec ⟨some demoCtx⟩ demoCtx demoKey rfl rfl rfl

/-! ### Claim C7 -/

/-- C7: when soter_asym_cipher_import_key returns Success the context's bound
key has been replaced by the key the KeyCodec decoded from the container
(bind_key changes only the pkey field of the operation context); on any
non-Success return the context is exactly as it was (no partial
overwrite). -/
theorem C7_import_frame (codec : KeyCodec) (hwf : codec_wf codec)
    (ac : soter_asym_cipher_t) (key : Option Bytes) :
    ((soter_asym_cipher_import_key codec (some ac) key).status = .SOTER_SUCCESS →
      ∃ pctx k kb, ac.pkey_ctx = some pctx ∧ key = some kb ∧
        (codec.rsa_priv_key_to_engine_specific kb = .ok k ∨
         codec.rsa_pub_key_to_engine_specific kb = .ok k) ∧
        (soter_asym_cipher_import_key codec (some ac) key).asym_cipher_ctx
          = some (bind_key ac pctx k)) ∧
    ((soter_asym_cipher_import_key codec (some ac) key).status ≠ .SOTER_SUCCESS →
      (soter_asym_cipher_import_key codec (some ac) key).asym_cipher_ctx = some ac) := by
  obtain ⟨hwf1, hwf2⟩ := hwf
  cases hpc : ac.pkey_ctx with
  | none =>
    refine ⟨fun hs => ?_, fun _ => ?_⟩
    · simp [soter_asym_cipher_import_key, hpc] at hs
    · simp [soter_asym_cipher_import_key, hpc]
  | some pctx =>
    cases hpk : pctx.pkey with
    | none =>
      refine ⟨fun hs => ?_, fun _ => ?_⟩
      · simp [soter_asym_cipher_import_key, hpc, hpk] at hs
      · simp [soter_asym_cipher_import_key, hpc, hpk]
    | some pk =>
      by_cases hid : pk.id = EVP_PKEY_RSA
      · cases key with
        | none =>
          refine ⟨fun hs => ?_, fun _ => ?_⟩
          · simp [soter_asym_cipher_import_key, EVP_PKEY_id, hpc, hpk, hid] at hs
          · simp [soter_asym_cipher_import_key, EVP_PKEY_id, hpc, hpk, hid]
        | some kb =>
          by_cases hlen : kb.length < sizeof_soter_container_hdr
          · refine ⟨fun hs => ?_, fun _ => ?_⟩
            · simp [soter_asym_cipher_import_key, EVP_PKEY_id, hpc, hpk, hid, hlen] at hs
            · simp [soter_asym_cipher_import_key, EVP_PKEY_id, hpc, hpk, hid, hlen]
          · by_cases h52 : (kb.head?).getD 0 = 0x52
            · cases hp : codec.rsa_priv_key_to_engine_specific kb with
              | ok k =>
                refine ⟨fun _ => ⟨pctx, k, kb, rfl, rfl, Or.inl hp, ?_⟩, fun hns => ?_⟩
                · simp [soter_asym_cipher_import_key, EVP_PKEY_id, hpc, hpk, hid, hlen, h52, hp]
                · exact absurd (by
                    simp [soter_asym_cipher_import_key, EVP_PKEY_id, hpc, hpk, hid, hlen, h52, hp])
                    hns
              | error e =>
                refine ⟨fun hs => ?_, fun _ => ?_⟩
                · have he : e = .SOTER_SUCCESS := by
                    simpa [soter_asym_cipher_import_key, EVP_PKEY_id, hpc, hpk, hid, hlen, h52, hp]
                      using hs
                  exact absurd he (hwf1 kb e hp)
                · simp [soter_asym_cipher_import_key, EVP_PKEY_id, hpc, hpk, hid, hlen, h52, hp]
            · by_cases h55 : (kb.head?).getD 0 = 0x55
              · cases hp : codec.rsa_pub_key_to_engine_specific kb with
                | ok k =>
                  refine ⟨fun _ => ⟨pctx, k, kb, rfl, rfl, Or.inr hp, ?_⟩, fun hns => ?_⟩
                  · simp [soter_asym_cipher_import_key, EVP_PKEY_id, hpc, hpk, hid, hlen, h52,
                      h55, hp]
                  · exact absurd (by
                      simp [soter_asym_cipher_import_key, EVP_PKEY_id, hpc, hpk, hid, hlen, h52,
                        h55, hp]) hns
                | error e =>
                  refine ⟨fun hs => ?_, fun _ => ?_⟩
                  · have he : e = .SOTER_SUCCESS := by
                      simpa [soter_asym_cipher_import_key, EVP_PKEY_id, hpc, hpk, hid, hlen, h52,
                        h55, hp] using hs
                    exact absurd he (hwf2 kb e hp)
                  · simp [soter_asym_cipher_import_key, EVP_PKEY_id, hpc, hpk, hid, hlen, h52,
                      h55, hp]
              · refine ⟨fun hs => ?_, fun _ => ?_⟩
                · simp [soter_asym_cipher_import_key, EVP_PKEY_id, hpc, hpk, hid, hlen, h52,
                    h55] at hs
                · simp [soter_asym_cipher_import_key, EVP_PKEY_id, hpc, hpk, hid, hlen, h52, h55]
      · refine ⟨fun hs => ?_, fun _ => ?_⟩
        · simp [soter_asym_cipher_import_key, EVP_PKEY_id, hpc, hpk, hid] at hs
        · simp [soter_asym_cipher_import_key, EVP_PKEY_id, hpc, hpk, hid]

/-- Witness for C7_import_frame: importing a private-key container with the
demo codec on a bound context. -/
theorem C7_import_frame_witness :
    ((soter_asym_cipher_import_key demoCodec (some ⟨some demoCtx⟩)
        (some (0x52 :: List.replicate 11 0))).status = .SOTER_SUCCESS →
      ∃ pctx k kb, (⟨some demoCtx⟩ : soter_asym_cipher_t).pkey_ctx = some pctx ∧
        (some (0x52 :: List.replicate 11 0) : Option Bytes) = some kb ∧
        (demoCodec.rsa_priv_key_to_engine_specific kb = .ok k ∨
         demoCodec.rsa_pub_key_to_engine_specific kb = .ok k) ∧
        (soter_asym_cipher_import_key demoCodec (some ⟨some demoCtx⟩)
          (some (0x52 :: List.replicate 11 0))).asym_cipher_ctx
            = some (bind_key ⟨some demoCtx⟩ pctx k)) ∧
    ((soter_asym_cipher_import_key demoCodec (some ⟨some demoCtx⟩)
        (some (0x52 :: List.replicate 11 0))).status ≠ .SOTER_SUCCESS →
      (soter_asym_cipher_import_key demoCodec (some ⟨some demoCtx⟩)
        (some (0x52 :: List.replicate 11 0))).asym_cipher_ctx = some ⟨some demoCtx⟩) :=
  C7_import_frame demoCodec demoCodec_wf ⟨some demoCtx⟩ (some (0x52 :: List.replicate 11 0))

/-! ### Claim C8 -/

/-- C8: soter_asym_cipher_gen_key on an initialized RSA context returns
InvalidParameter when the engine rejects key-generation mode, NoMemory when
the BIGNUM allocation for the exponent fails, Fail when setting the exponent
word, the keygen-exponent ctrl at 65537 or the keygen-bits ctrl at 2048
fails; when all of these succeed, the engine-call trace shows the exponent
set to 65537 (RSA_F4) and the modulus size set to 2048 bits before the
generation call, and the call returns Success exactly when the engine
reports generation success — and never otherwise. -/
theorem C8_gen_key (pctx : EVP_PKEY_CTX) (pk : EVP_PKEY)
    (hpk : pctx.pkey = some pk) (hid : pk.id = EVP_PKEY_RSA) :
    (pctx.keygen_init_ok = false →
      (soter_asym_cipher_gen_key (some ⟨some pctx⟩)).status = .SOTER_INVALID_PARAMETER) ∧
    (pctx.keygen_init_ok = true → pctx.bn_new_ok = false →
      (soter_asym_cipher_gen_key (some ⟨some pctx⟩)).status = .SOTER_NO_MEMORY) ∧
    (pctx.keygen_init_ok = true → pctx.bn_new_ok = true → pctx.bn_set_word_ok = false →
      (soter_asym_cipher_gen_key (some ⟨some pctx⟩)).status = .SOTER_FAIL) ∧
    (pctx.keygen_init_ok = true → pctx.bn_new_ok = true → pctx.bn_set_word_ok = true →
      pctx.ctrl_keygen_pubexp RSA_F4 < 1 →
      (soter_asym_cipher_gen_key (some ⟨some pctx⟩)).status = .SOTER_FAIL) ∧
    (pctx.keygen_init_ok = true → pctx.bn_new_ok = true → pctx.bn_set_word_ok = true →
      ¬ pctx.ctrl_keygen_pubexp RSA_F4 < 1 → pctx.ctrl_keygen_bits 2048 < 1 →
      (soter_asym_cipher_gen_key (some ⟨some pctx⟩)).status = .SOTER_FAIL) ∧
    (pctx.keygen_init_ok = true → pctx.bn_new_ok = true → pctx.bn_set_word_ok = true →
      ¬ pctx.ctrl_keygen_pubexp RSA_F4 < 1 → ¬ pctx.ctrl_keygen_bits 2048 < 1 →
      (soter_asym_cipher_gen_key (some ⟨some pctx⟩)).calls =
        [.get0_pkey, .pkey_id, .keygen_init, .bn_new, .bn_set_word RSA_F4,
          .ctrl_rsa_keygen_pubexp RSA_F4, .ctrl_rsa_keygen_bits 2048, .evp_keygen] ∧
      ((soter_asym_cipher_gen_key (some ⟨some pctx⟩)).status = .SOTER_SUCCESS ↔
        pctx.keygen_ok = true)) ∧
    ((soter_asym_cipher_gen_key (some ⟨some pctx⟩)).status = .SOTER_SUCCESS →
      pctx.keygen_ok = true) := by
  refine ⟨?_, ?_, ?_, ?_, ?_, ?_, ?_⟩
  · intro h1
    simp [soter_asym_cipher_gen_key, EVP_PKEY_id, hpk, hid, h1]
  · intro h1 h2
    simp [soter_asym_cipher_gen_key, EVP_PKEY_id, hpk, hid, h1, h2]
  · intro h1 h2 h3
    simp [soter_asym_cipher_gen_key, EVP_PKEY_id, hpk, hid, h1, h2, h3]
  · intro h1 h2 h3 h4
    simp [soter_asym_cipher_gen_key, EVP_PKEY_id, hpk, hid, h1, h2, h3, h4]
  · intro h1 h2 h3 h4 h5
    simp [soter_asym_cipher_gen_key, EVP_PKEY_id, hpk, hid, h1, h2, h3, h4, h5]
  · intro h1 h2 h3 h4 h5
    cases hko : pctx.keygen_ok <;>
      simp [soter_asym_cipher_gen_key, EVP_PKEY_id, hpk, hid, h1, h2, h3, h4, h5, hko]
  · intro hs
    cases h1 : pctx.keygen_init_ok with
    | false => simp [soter_asym_cipher_gen_key, EVP_PKEY_id, hpk, hid, h1] at hs
    | true =>
      cases h2 : pctx.bn_new_ok with
      | false => simp [soter_asym_cipher_gen_key, EVP_PKEY_id, hpk, hid, h1, h2] at hs
      | true =>
        cases h3 : pctx.bn_set_word_ok with
        | false => simp [soter_asym_cipher_gen_key, EVP_PKEY_id, hpk, hid, h1, h2, h3] at hs
        | true =>
          by_cases h4 : pctx.ctrl_keygen_pubexp RSA_F4 < 1
          · simp [soter_asym_cipher_gen_key, EVP_PKEY_id, hpk, hid, h1, h2, h3, h4] at hs
          · by_cases h5 : pctx.ctrl_keygen_bits 2048 < 1
            · simp [soter_asym_cipher_gen_key, EVP_PKEY_id, hpk, hid, h1, h2, h3, h4, h5] at hs
            · cases hko : pctx.keygen_ok with
              | false =>
                simp [soter_asym_cipher_gen_key, EVP_PKEY_id, hpk, hid, h1, h2, h3, h4, h5,
                  hko] at hs
              | true => rfl

/-- Witness for C8_gen_key at the demo engine, where every engine step
succeeds. -/
theorem C8_gen_key_witness :
    (demoCtx.keygen_init_ok = false →
      (soter_asym_cipher_gen_key (some ⟨some demoCtx⟩)).status = .SOTER_INVALID_PARAMETER) ∧
    (demoCtx.keygen_init_ok = true → demoCtx.bn_new_ok = false →
      (soter_asym_cipher_gen_key (some ⟨some demoCtx⟩)).status = .SOTER_NO_MEMORY) ∧
    (demoCtx.keygen_init_ok = true → demoCtx.bn_new_ok = true →
      demoCtx.bn_set_word_ok = false →
      (soter_asym_cipher_gen_key (some ⟨some demoCtx⟩)).status = .SOTER_FAIL) ∧
    (demoCtx.keygen_init_ok = true → demoCtx.bn_new_ok = true →
      demoCtx.bn_set_word_ok = true → demoCtx.ctrl_keygen_pubexp RSA_F4 < 1 →
      (soter_asym_cipher_gen_key (some ⟨some demoCtx⟩)).status = .SOTER_FAIL) ∧
    (demoCtx.keygen_init_ok = true → demoCtx.bn_new_ok = true →
      demoCtx.bn_set_word_ok = true → ¬ demoCtx.ctrl_keygen_pubexp RSA_F4 < 1 →
      demoCtx.ctrl_keygen_bits 2048 < 1 →
      (soter_asym_cipher_gen_key (some ⟨some demoCtx⟩)).status = .SOTER_FAIL) ∧
    (demoCtx.keygen_init_ok = true → demoCtx.bn_new_ok = true →
      demoCtx.bn_set_word_ok = true → ¬ demoCtx.ctrl_keygen_pubexp RSA_F4 < 1 →
      ¬ demoCtx.ctrl_keygen_bits 2048 < 1 →
      (soter_asym_cipher_gen_key (some ⟨some demoCtx⟩)).calls =
        [.get0_pkey, .pkey_id, .keygen_init, .bn_new, .bn_set_word RSA_F4,
          .ctrl_rsa_keygen_pubexp RSA_F4, .ctrl_rsa_keygen_bits 2048, .evp_keygen] ∧
      ((soter_asym_cipher_gen_key (some ⟨some demoCtx⟩)).status = .SOTER_SUCCESS ↔
        demoCtx.keygen_ok = true)) ∧
    ((soter_asym_cipher_gen_key (some ⟨some demoCtx⟩)).status = .SOTER_SUCCESS →
      demoCtx.keygen_ok = true) :=
  C8_gen_key demoCtx demoKey rfl rfl

/-! ### Claim C9 -/

/-- C9 (refuting the claim on the code): soter_asym_cipher_cleanup frees the
engine handle but does not null the pkey_ctx field — the context state after
cleanup still holds the very same handle — so a second cleanup of the same
context passes the same handle to EVP_PKEY_CTX_free again: the handle is
released twice over the lifetime, not once, and nothing makes the double free
structurally impossible. -/
theorem C9_cleanup_not_nulled :
    (soter_asym_cipher_cleanup (some ⟨some demoCtx⟩)).status = .SOTER_SUCCESS ∧
    (soter_asym_cipher_cleanup (some ⟨some demoCtx⟩)).freed = [demoCtx] ∧
    (soter_asym_cipher_cleanup (some ⟨some demoCtx⟩)).asym_cipher = some ⟨some demoCtx⟩ ∧
    (soter_asym_cipher_cleanup
      ((soter_asym_cipher_cleanup (some ⟨some demoCtx⟩)).asym_cipher)).freed = [demoCtx] :=
  ⟨rfl, rfl, rfl, rfl⟩

/-! ### Claim C10 -/

/-- C10: both encrypt and decrypt reject a NULL context, a NULL input
pointer, a zero-length input and a NULL in/out length pointer with
InvalidParameter before any engine operation is invoked (the engine-call
trace is empty). -/
theorem C10_null_argument_checks (ac : soter_asym_cipher_t) (p c : Bytes)
    (b1 b2 b3 b4 b5 b6 b7 b8 : Bool) (l1 l2 l5 l6 : Option Nat) (cap1 cap2 : Nat) :
    ((soter_asym_cipher_encrypt none (some p) b1 l1).status = .SOTER_INVALID_PARAMETER ∧
      (soter_asym_cipher_encrypt none (some p) b1 l1).calls = []) ∧
    ((soter_asym_cipher_encrypt (some ac) none b2 l2).status = .SOTER_INVALID_PARAMETER ∧
      (soter_asym_cipher_encrypt (some ac) none b2 l2).calls = []) ∧
    ((soter_asym_cipher_encrypt (some ac) (some []) b3 (some cap1)).status
        = .SOTER_INVALID_PARAMETER ∧
      (soter_asym_cipher_encrypt (some ac) (some []) b3 (some cap1)).calls = []) ∧
    ((soter_asym_cipher_encrypt (some ac) (some p) b4 none).status
        = .SOTER_INVALID_PARAMETER ∧
      (soter_asym_cipher_encrypt (some ac) (some p) b4 none).calls = []) ∧
    ((soter_asym_cipher_decrypt none (some c) b5 l5).status = .SOTER_INVALID_PARAMETER ∧
      (soter_asym_cipher_decrypt none (some c) b5 l5).calls = []) ∧
    ((soter_asym_cipher_decrypt (some ac) none b6 l6).status = .SOTER_INVALID_PARAMETER ∧
      (soter_asym_cipher_decrypt (some ac) none b6 l6).calls = []) ∧
    ((soter_asym_cipher_decrypt (some ac) (some []) b7 (some cap2)).status
        = .SOTER_INVALID_PARAMETER ∧
      (soter_asym_cipher_decrypt (some ac) (some []) b7 (some cap2)).calls = []) ∧
    ((soter_asym_cipher_decrypt (some ac) (some c) b8 none).status
        = .SOTER_INVALID_PARAMETER ∧
      (soter_asym_cipher_decrypt (some ac) (some c) b8 none).calls = []) := by
  refine ⟨?_, ?_, ⟨rfl, rfl⟩, ⟨rfl, rfl⟩, ?_, ?_, ⟨rfl, rfl⟩, ⟨rfl, rfl⟩⟩
  · cases l1 <;> exact ⟨rfl, rfl⟩
  · cases l2 <;> exact ⟨rfl, rfl⟩
  · cases l5 <;> exact ⟨rfl, rfl⟩
  · cases l6 <;> exact ⟨rfl, rfl⟩
